import Mathlib

/-!
Shallow embedding of `drivers/thermal/gpucore_cooling.c`: a thermal cooling
driver that maps a requested cooling state onto an active GPU core count and
can latch the device into a permanently stopped mode.  Identifiers follow the
C source; machine arithmetic (`unsigned int` truncation on the core-count
computation) is made explicit with `Int` subtraction reduced modulo `2 ^ 32`.
-/

namespace GpucoreCooling

/-- Modelled from the spec: the header `linux/gpucore_cooling.h` is not part of
the sources; the spec describes the STOP flag as "an out-of-band bit riding
inside the same numeric request".  We model it as the high bit of a 32-bit
word, `GPU_STOP = 0x80000000`. -/
def GPU_STOP : Nat := 0x80000000

/-- Modelled from the spec: the C expression `~GPU_STOP` at `unsigned int`
width, i.e. `0x7FFFFFFF`, the mask that strips the STOP flag. -/
def GPU_STOP_compl : Nat := 0x7FFFFFFF

/-- The fields of `struct gpucore_cooling_device` that the source reads or
writes.  `cool_dev` (a pointer in C) is modelled by whether it is non-null;
the `set_max_pp_num` callback is modelled externally by recording the
arguments of its invocations. -/
structure GpucoreCoolingDevice where
  id : Nat
  cool_dev : Bool
  gpucore_state : Nat
  max_gpu_core_num : Nat
  stop_flag : Bool
deriving DecidableEq, Repr

/-- The argument passed to `set_max_pp_num` by `gpucore_set_cur_state`:
`set_max_num = max_gpu_core_num - state` is computed in C integer arithmetic
and then cast to `unsigned int`.  Whatever the width of `unsigned long`
(32 or 64 bits), the final `unsigned int` value is the mathematical
difference reduced modulo `2 ^ 32`. -/
def set_max_num_uint (maxNum state : Nat) : Nat :=
  (((maxNum : Int) - (state : Int)) % ((2 : Int) ^ 32)).toNat

/-- Result of one `gpucore_set_cur_state` call: the C return value, the
device after the call, and the arguments of the `set_max_pp_num`
invocations made during the call, in order. -/
structure SetCurStateResult where
  ret : Int
  dev : GpucoreCoolingDevice
  calls : List Nat
deriving DecidableEq, Repr

/-- Embedding of `gpucore_set_cur_state` (the sequential, single-caller
behaviour; the interleaved behaviour of the same code is modelled
separately below).  If the stop latch is set the call returns 0 with no
effect; otherwise a set STOP bit latches `stop_flag` and is stripped from
`state`; then `gpucore_state` is updated and `set_max_pp_num` is invoked
once with `(unsigned int)(max_gpu_core_num - state)`. -/
def gpucore_set_cur_state (dev : GpucoreCoolingDevice) (state : Nat) :
    SetCurStateResult :=
  if dev.stop_flag then
    { ret := 0, dev := dev, calls := [] }
  else
    let p :=
      if state &&& GPU_STOP = GPU_STOP then
        ({ dev with stop_flag := true }, state &&& GPU_STOP_compl)
      else (dev, state)
    let dev1 := { p.1 with gpucore_state := p.2 }
    { ret := 0, dev := dev1,
      calls := [set_max_num_uint dev1.max_gpu_core_num p.2] }

/-- Embedding of `gpucore_get_max_state`: writes `max_gpu_core_num` into
`*state` and returns 0. -/
def gpucore_get_max_state (dev : GpucoreCoolingDevice) : Int × Nat :=
  (0, dev.max_gpu_core_num)

/-- Embedding of `gpucore_get_cur_state`: writes `gpucore_state` into
`*state` and returns 0. -/
def gpucore_get_cur_state (dev : GpucoreCoolingDevice) : Int × Nat :=
  (0, dev.gpucore_state)

/-! ### Identity allocator (`gpucore_idr`, `get_idr`, `release_idr`)

The kernel `idr` is modelled by the list of currently allocated ids.
`idr_alloc(idr, NULL, 0, 0, ...)` returns the smallest unused non-negative
integer; its only failure mode (memory exhaustion) is external and is
modelled by an `Option Int` parameter carrying the negative errno. -/

/-- Linear scan for the first integer not in `s`, starting at `n`, with
explicit fuel.  With fuel `s.length + 1` starting at 0 it always finds the
smallest unused non-negative integer. -/
def firstFree (s : List Nat) : Nat → Nat → Nat
  | n, 0 => n
  | n, fuel + 1 => if n ∈ s then firstFree s (n + 1) fuel else n

/-- Embedding of a successful `idr_alloc(&gpucore_idr, NULL, 0, 0, _)`:
returns the smallest unused non-negative id and marks it used. -/
def idr_alloc (s : List Nat) : Nat × List Nat :=
  let id := firstFree s 0 (s.length + 1)
  (id, id :: s)

/-- Embedding of `idr_alloc` including its external failure mode: `some e`
means the underlying allocation failed with errno `e` (`e < 0`) and the id
set is unchanged. -/
def idr_alloc_r (fail : Option Int) (s : List Nat) : Int × List Nat :=
  match fail with
  | some e => (e, s)
  | none =>
    let p := idr_alloc s
    ((p.1 : Int), p.2)

/-- Embedding of `idr_remove`: removes one occurrence of `id` from the
allocated set; removing an id that is not held is a no-op. -/
def idr_remove (s : List Nat) (id : Nat) : List Nat :=
  s.erase id

/-- Embedding of `get_idr`: calls `idr_alloc` under the lock; a negative
result is returned as the error code, otherwise `*id` receives the new id
and 0 is returned.  Result: `(ret, *id, idr)` (`*id` is left at 0 when not
written). -/
def get_idr (fail : Option Int) (s : List Nat) : Int × Nat × List Nat :=
  let p := idr_alloc_r fail s
  if p.1 < 0 then (p.1, 0, p.2) else (0, p.1.toNat, p.2)

/-- Embedding of `release_idr`: removes the id under the lock. -/
def release_idr (s : List Nat) (id : Nat) : List Nat :=
  idr_remove s id

/-! ### Allocation and registration -/

/-- The zero-filled `struct gpucore_cooling_device` that a successful
`gpucore_cooling_alloc` produces (`kzalloc` + `memset` to 0). -/
def gcdev_zeroed : GpucoreCoolingDevice :=
  { id := 0, cool_dev := false, gpucore_state := 0,
    max_gpu_core_num := 0, stop_flag := false }

/-- Embedding of `gpucore_cooling_alloc`: returns the zeroed structure, or
`ERR_PTR(-ENOMEM)` (= -12) when `kzalloc` fails (`memOk = false`). -/
def gpucore_cooling_alloc (memOk : Bool) : Except Int GpucoreCoolingDevice :=
  if memOk then .ok gcdev_zeroed else .error (-12)

/-- Outcome of `gpucore_cooling_register`: the returned pointer (`0` is the
C `return 0`, i.e. NULL; a negative `e` stands for `ERR_PTR(e)`), the id
set afterwards, whether the caller-supplied structure was freed, and the
surviving controller, if any. -/
structure RegisterOutcome where
  retPtr : Int
  idr : List Nat
  devFreed : Bool
  dev : Option GpucoreCoolingDevice
deriving DecidableEq, Repr

/-- Embedding of `gpucore_cooling_register`.  `idrFail` is the external
failure mode of `idr_alloc`; `frameworkAccepts` is whether
`thermal_cooling_device_register` returns a non-NULL cooling device.  On
id-allocation failure the structure is freed and `ERR_PTR(-EINVAL)`
(= -22) is returned; on framework rejection the id is released, the
structure freed and `ERR_PTR(-EINVAL)` returned; on success `cool_dev` is
stored, `gpucore_state` is set to 0 and NULL (0) is returned. -/
def gpucore_cooling_register (idrFail : Option Int) (frameworkAccepts : Bool)
    (s : List Nat) (gcdev : GpucoreCoolingDevice) : RegisterOutcome :=
  let g := get_idr idrFail s
  if g.1 ≠ 0 then
    { retPtr := -22, idr := g.2.2, devFreed := true, dev := none }
  else
    let gcdev1 := { gcdev with id := g.2.1 }
    if frameworkAccepts then
      { retPtr := 0, idr := g.2.2, devFreed := false,
        dev := some { gcdev1 with cool_dev := true, gpucore_state := 0 } }
    else
      { retPtr := -22, idr := release_idr g.2.2 g.2.1, devFreed := true,
        dev := none }

/-- Embedding of `gpucore_cooling_unregister`: a null cooling-device
pointer is a no-op; otherwise the id is released and the structure freed.
Result: the id set afterwards and whether the structure was freed. -/
def gpucore_cooling_unregister (cdev : Option GpucoreCoolingDevice)
    (s : List Nat) : List Nat × Bool :=
  match cdev with
  | none => (s, false)
  | some d => (release_idr s d.id, true)

/-! ### Interleaved execution of `gpucore_set_cur_state`

The body of `gpucore_set_cur_state` holds `cooling_gpucore_lock` only around
the latch check and the STOP-flag handling; the `gpucore_state` write and
the `set_max_pp_num` call happen after `mutex_unlock`.  To examine what two
concurrent callers can do, the function is modelled as a small-step program
with one atomic step per C statement. -/

/-- Program counter inside `gpucore_set_cur_state`: acquire the mutex,
check `stop_flag` (releasing the mutex and returning 0 when set), test and
strip the STOP bit, `mutex_unlock`, write `gpucore_state`, invoke
`set_max_pp_num`, done. -/
inductive TPc where
  | acq | chk | flg | unl | wrS | cal | fin
deriving DecidableEq, Repr

/-- One caller of `gpucore_set_cur_state`: its program counter and its
local copy of the `state` argument (mutated in place by the flag strip). -/
structure ThreadSt where
  pc : TPc
  st : Nat
deriving DecidableEq, Repr

/-- Shared state for the interleaved model: the device, whether
`cooling_gpucore_lock` is held, the two callers, and the `set_max_pp_num`
invocations so far (in order). -/
structure SysSt where
  dev : GpucoreCoolingDevice
  locked : Bool
  t0 : ThreadSt
  t1 : ThreadSt
  calls : List Nat
deriving DecidableEq, Repr

/-- One atomic step of one caller against the shared state.  A caller at
`acq` while the mutex is held, or one that has returned, does nothing. -/
def stepT (dev : GpucoreCoolingDevice) (locked : Bool) (t : ThreadSt)
    (calls : List Nat) : GpucoreCoolingDevice × Bool × ThreadSt × List Nat :=
  match t.pc with
  | .acq =>
    if locked then (dev, locked, t, calls)
    else (dev, true, { t with pc := .chk }, calls)
  | .chk =>
    if dev.stop_flag then (dev, false, { t with pc := .fin }, calls)
    else (dev, locked, { t with pc := .flg }, calls)
  | .flg =>
    if t.st &&& GPU_STOP = GPU_STOP then
      ({ dev with stop_flag := true }, locked,
       { pc := .unl, st := t.st &&& GPU_STOP_compl }, calls)
    else (dev, locked, { t with pc := .unl }, calls)
  | .unl => (dev, false, { t with pc := .wrS }, calls)
  | .wrS => ({ dev with gpucore_state := t.st }, locked,
             { t with pc := .cal }, calls)
  | .cal => (dev, locked, { t with pc := .fin },
             calls ++ [set_max_num_uint dev.max_gpu_core_num t.st])
  | .fin => (dev, locked, t, calls)

/-- Run one scheduler choice: `false` steps caller 0, `true` steps
caller 1. -/
def schedStep (sys : SysSt) (who : Bool) : SysSt :=
  if who then
    let r := stepT sys.dev sys.locked sys.t1 sys.calls
    { dev := r.1, locked := r.2.1, t0 := sys.t0, t1 := r.2.2.1,
      calls := r.2.2.2 }
  else
    let r := stepT sys.dev sys.locked sys.t0 sys.calls
    { dev := r.1, locked := r.2.1, t0 := r.2.2.1, t1 := sys.t1,
      calls := r.2.2.2 }

/-- Run a whole schedule. -/
def runSched (sys : SysSt) (sched : List Bool) : SysSt :=
  sched.foldl schedStep sys

/-- The numeric value that `gpucore_set_cur_state` records into
`gpucore_state` on a non-stopped device: the request with the STOP flag
stripped when present. -/
def requested_val (n : Nat) : Nat :=
  if n &&& GPU_STOP = GPU_STOP then n &&& GPU_STOP_compl else n

/-- Controller states reachable through the driver interface: a freshly
registered controller (allocated zeroed, `max_gpu_core_num` filled in by
the GPU driver before registration), followed by any sequence of
`gpucore_set_cur_state` calls whose recorded value stays within
`[0, max_gpu_core_num]`. -/
inductive Reachable : GpucoreCoolingDevice → Prop where
  | init : ∀ (M : Nat) (s : List Nat) (d : GpucoreCoolingDevice),
      (gpucore_cooling_register none true s
        { gcdev_zeroed with max_gpu_core_num := M }).dev = some d →
      Reachable d
  | step : ∀ (d : GpucoreCoolingDevice) (n : Nat), Reachable d →
      requested_val n ≤ d.max_gpu_core_num →
      Reachable (gpucore_set_cur_state d n).dev

/-! ### Helper lemmas -/

theorem set_max_num_uint_of_le {m n : Nat} (h1 : n ≤ m) (h2 : m < 2 ^ 32) :
    set_max_num_uint m n = m - n := by
  unfold set_max_num_uint
  have hm : ((m : Int) - (n : Int)) % ((2 : Int) ^ 32) = (m : Int) - (n : Int) := by
    apply Int.emod_eq_of_lt
    · omega
    · have : ((2 : Int) ^ 32) = ((2 ^ 32 : Nat) : Int) := by norm_num
      omega
  rw [hm]
  omega

theorem set_cur_state_dev_state (d : GpucoreCoolingDevice) (n : Nat) :
    (gpucore_set_cur_state d n).dev.gpucore_state =
      if d.stop_flag then d.gpucore_state else requested_val n := by
  unfold gpucore_set_cur_state requested_val
  by_cases hs : d.stop_flag <;> by_cases hf : n &&& GPU_STOP = GPU_STOP <;>
    simp [hs, hf]

theorem set_cur_state_dev_max (d : GpucoreCoolingDevice) (n : Nat) :
    (gpucore_set_cur_state d n).dev.max_gpu_core_num = d.max_gpu_core_num := by
  unfold gpucore_set_cur_state
  by_cases hs : d.stop_flag <;> by_cases hf : n &&& GPU_STOP = GPU_STOP <;>
    simp [hs, hf]

theorem firstFree_spec (s : List Nat) :
    ∀ (fuel n : Nat), (∃ m, n ≤ m ∧ m ≤ n + fuel ∧ m ∉ s) →
      firstFree s n fuel ∉ s ∧ n ≤ firstFree s n fuel ∧
        ∀ k, n ≤ k → k < firstFree s n fuel → k ∈ s := by
  intro fuel
  induction fuel with
  | zero =>
    intro n hm
    obtain ⟨m, h1, h2, h3⟩ := hm
    have hmn : m = n := by omega
    subst hmn
    refine ⟨h3, le_refl _, ?_⟩
    intro k hk1 hk2
    simp [firstFree] at hk2
    omega
  | succ fuel ih =>
    intro n hm
    obtain ⟨m, h1, h2, h3⟩ := hm
    by_cases hn : n ∈ s
    · have hne : m ≠ n := fun h => h3 (h ▸ hn)
      have hrec : ∃ m, n + 1 ≤ m ∧ m ≤ n + 1 + fuel ∧ m ∉ s :=
        ⟨m, by omega, by omega, h3⟩
      obtain ⟨r1, r2, r3⟩ := ih (n + 1) hrec
      have heq : firstFree s n (fuel + 1) = firstFree s (n + 1) fuel := by
        simp [firstFree, hn]
      rw [heq]
      refine ⟨r1, by omega, ?_⟩
      intro k hk1 hk2
      by_cases hkn : k = n
      · exact hkn ▸ hn
      · exact r3 k (by omega) hk2
    · have heq : firstFree s n (fuel + 1) = n := by simp [firstFree, hn]
      rw [heq]
      refine ⟨hn, le_refl _, ?_⟩
      intro k hk1 hk2
      omega

theorem exists_le_length_not_mem (s : List Nat) :
    ∃ m, m ≤ s.length ∧ m ∉ s := by
  by_contra h
  push_neg at h
  have hsub : Finset.range (s.length + 1) ⊆ s.toFinset := by
    intro x hx
    rw [Finset.mem_range] at hx
    rw [List.mem_toFinset]
    exact h x (by omega)
  have hc1 : (Finset.range (s.length + 1)).card ≤ s.toFinset.card :=
    Finset.card_le_card hsub
  have hc2 : s.toFinset.card ≤ s.length := s.toFinset_card_le
  rw [Finset.card_range] at hc1
  omega

theorem idr_alloc_spec (s : List Nat) :
    (idr_alloc s).1 ∉ s ∧ (∀ m, m < (idr_alloc s).1 → m ∈ s) ∧
      (idr_alloc s).2 = (idr_alloc s).1 :: s := by
  obtain ⟨m, hm1, hm2⟩ := exists_le_length_not_mem s
  have h := firstFree_spec s (s.length + 1) 0 ⟨m, by omega, by omega, hm2⟩
  exact ⟨h.1, fun k hk => h.2.2 k (by omega) hk, rfl⟩

/-! ### Claim theorems -/

/-- Claim C1: for every `n` with `0 ≤ n ≤ maxState`, on a controller that is
not stopped, `gpucore_set_cur_state` without the STOP bit succeeds
(returns 0), a subsequent `gpucore_get_cur_state` returns `n`, and
`set_max_pp_num` is invoked exactly once during the call with
`maxState - n`. -/
theorem requestState_in_range_ok (d : GpucoreCoolingDevice) (n : Nat)
    (hstop : d.stop_flag = false) (hle : n ≤ d.max_gpu_core_num)
    (hflag : n &&& GPU_STOP ≠ GPU_STOP) (hmax : d.max_gpu_core_num < 2 ^ 32) :
    gpucore_set_cur_state d n =
      { ret := 0, dev := { d with gpucore_state := n },
        calls := [d.max_gpu_core_num - n] } ∧
    gpucore_get_cur_state (gpucore_set_cur_state d n).dev = (0, n) := by
  have h : gpucore_set_cur_state d n =
      { ret := 0, dev := { d with gpucore_state := n },
        calls := [d.max_gpu_core_num - n] } := by
    unfold gpucore_set_cur_state
    simp [hstop, hflag, set_max_num_uint_of_le hle hmax]
  exact ⟨h, by rw [h]; simp [gpucore_get_cur_state]⟩

/-- Witness for C1 at the spec scenario `maxState = 8`, request 3: state
becomes 3 and the setter is called once with 5. -/
theorem requestState_in_range_ok_witness :
    gpucore_set_cur_state ⟨0, true, 0, 8, false⟩ 3 =
      { ret := 0, dev := ⟨0, true, 3, 8, false⟩, calls := [5] } ∧
    gpucore_get_cur_state (gpucore_set_cur_state ⟨0, true, 0, 8, false⟩ 3).dev =
      (0, 3) :=
  requestState_in_range_ok ⟨0, true, 0, 8, false⟩ 3 rfl (by decide) (by decide)
    (by decide)

/-- Claim C2: a `gpucore_set_cur_state` call whose argument carries the STOP
flag leaves the stop latch set, and once `stop_flag` is set every call,
whatever its argument, returns 0, leaves the device (hence
`gpucore_state` and `stop_flag`) unchanged, and makes no `set_max_pp_num`
invocation — the latch is permanent. -/
theorem stop_latch_permanent (d : GpucoreCoolingDevice) (n : Nat) :
    (n &&& GPU_STOP = GPU_STOP →
      (gpucore_set_cur_state d n).dev.stop_flag = true) ∧
    (d.stop_flag = true →
      gpucore_set_cur_state d n = { ret := 0, dev := d, calls := [] }) := by
  constructor
  · intro hf
    unfold gpucore_set_cur_state
    by_cases hs : d.stop_flag
    · simp [hs]
    · simp [hs, hf]
  · intro hs
    unfold gpucore_set_cur_state
    simp [hs]

/-- Witness for C2: `STOP | 6` latches an active controller, and a stopped
controller absorbs a request for state 1 with no effect and no setter
call. -/
theorem stop_latch_permanent_witness :
    (gpucore_set_cur_state ⟨0, true, 0, 8, false⟩ 0x80000006).dev.stop_flag =
      true ∧
    gpucore_set_cur_state ⟨0, true, 6, 8, true⟩ 1 =
      { ret := 0, dev := ⟨0, true, 6, 8, true⟩, calls := [] } :=
  ⟨(stop_latch_permanent ⟨0, true, 0, 8, false⟩ 0x80000006).1 (by decide),
   (stop_latch_permanent ⟨0, true, 6, 8, true⟩ 1).2 rfl⟩

/-- Claim C3: on a not-yet-stopped controller a request carrying the STOP
flag latches `stop_flag`, strips the flag from the numeric value, records
the stripped value in `gpucore_state`, and still invokes `set_max_pp_num`
once with `maxState` minus the stripped value. -/
theorem stop_request_strips_and_records (d : GpucoreCoolingDevice) (n : Nat)
    (hstop : d.stop_flag = false) (hflag : n &&& GPU_STOP = GPU_STOP)
    (hle : n &&& GPU_STOP_compl ≤ d.max_gpu_core_num)
    (hmax : d.max_gpu_core_num < 2 ^ 32) :
    gpucore_set_cur_state d n =
      { ret := 0,
        dev :=
          { d with stop_flag := true, gpucore_state := n &&& GPU_STOP_compl },
        calls := [d.max_gpu_core_num - (n &&& GPU_STOP_compl)] } ∧
    gpucore_get_cur_state (gpucore_set_cur_state d n).dev =
      (0, n &&& GPU_STOP_compl) := by
  have h : gpucore_set_cur_state d n =
      { ret := 0,
        dev :=
          { d with stop_flag := true, gpucore_state := n &&& GPU_STOP_compl },
        calls := [d.max_gpu_core_num - (n &&& GPU_STOP_compl)] } := by
    unfold gpucore_set_cur_state
    simp [hstop, hflag, set_max_num_uint_of_le hle hmax]
  exact ⟨h, by rw [h]; simp [gpucore_get_cur_state]⟩

/-- Witness for C3 at the spec scenario: `maxState = 8`,
request `STOP | 6 = 0x80000006` on state 3: current state becomes 6, the
latch is set, and the setter is called once with 2. -/
theorem stop_request_strips_and_records_witness :
    gpucore_set_cur_state ⟨0, true, 3, 8, false⟩ 0x80000006 =
      { ret := 0, dev := ⟨0, true, 6, 8, true⟩, calls := [2] } ∧
    gpucore_get_cur_state
      (gpucore_set_cur_state ⟨0, true, 3, 8, false⟩ 0x80000006).dev = (0, 6) :=
  stop_request_strips_and_records ⟨0, true, 3, 8, false⟩ 0x80000006 rfl
    (by decide) (by decide) (by decide)

/-- Claim C4 concerns clamping of the computed active count.  The code does
the opposite of the claim: at `maxState = 8`, a request for state 9 on a
not-stopped controller returns 0 (success, not `InvalidState`), records
`gpucore_state = 9 > maxState`, and passes the wrapped `unsigned int`
value `2 ^ 32 - 1 = 4294967295` to `set_max_pp_num`. -/
theorem set_cur_state_no_clamp_at_9 :
    gpucore_set_cur_state ⟨0, true, 0, 8, false⟩ 9 =
      { ret := 0, dev := ⟨0, true, 9, 8, false⟩, calls := [4294967295] } := by
  decide

/-- Claim C5 asserts the whole `gpucore_set_cur_state` sequence is one
atomic unit per controller.  In the statement-granularity interleaved
model of the source (which releases `cooling_gpucore_lock` before the
`gpucore_state` write and the `set_max_pp_num` call), the following
schedule refutes this: caller 0 requests state 3 and gets past the latch
check and the unlock; caller 1 then runs `STOP | 6` to completion,
latching the device with frozen state 6 and setter call 2; caller 0 then
resumes, overwriting `gpucore_state` of the now-stopped device with 3 and
invoking the setter again with 5.  Both callers observed
`stop_flag = false` and both proceeded (two setter calls `[2, 5]`), and
the stopped device's recorded state ends at 3, not the frozen 6. -/
theorem race_two_callers_both_pass_latch :
    runSched
      { dev := ⟨0, true, 0, 8, false⟩, locked := false,
        t0 := ⟨TPc.acq, 3⟩, t1 := ⟨TPc.acq, 0x80000006⟩, calls := [] }
      [false, false, false, false, true, true, true, true, true, true,
       false, false] =
      { dev := ⟨0, true, 3, 8, true⟩, locked := false,
        t0 := ⟨TPc.fin, 3⟩, t1 := ⟨TPc.fin, 6⟩, calls := [2, 5] } := by
  decide

/-- Claim C9: `gpucore_get_max_state` returns 0 (never fails) and the
`max_gpu_core_num` fixed at creation; it is a pure read (the embedding
takes the device and returns only the pair, with no device update and no
setter invocation), and its result is invariant across the controller's
lifetime: `gpucore_set_cur_state` never changes `max_gpu_core_num`, and a
registered controller keeps the `max_gpu_core_num` of the structure that
was registered. -/
theorem get_max_state_pure_invariant (d : GpucoreCoolingDevice)
    (s : List Nat) (n : Nat) :
    gpucore_get_max_state d = (0, d.max_gpu_core_num) ∧
    (gpucore_set_cur_state d n).dev.max_gpu_core_num = d.max_gpu_core_num ∧
    gpucore_get_max_state (gpucore_set_cur_state d n).dev =
      gpucore_get_max_state d ∧
    (gpucore_cooling_register none true s d).dev.map
        (fun x => x.max_gpu_core_num) = some d.max_gpu_core_num := by
  refine ⟨rfl, set_cur_state_dev_max d n, ?_, ?_⟩
  · simp [gpucore_get_max_state, set_cur_state_dev_max d n]
  · have h1 : ¬(((idr_alloc s).1 : Int) < 0) := by
      simp
    simp [gpucore_cooling_register, get_idr, idr_alloc_r, h1]

/-- Claim C6: a failed registration performs a full rollback.  When id
allocation fails, no id was taken, the structure is freed and the id set
is unchanged; when the framework rejects the binding, the freshly
allocated id is released (the id set returns to its pre-call value, so
the id is reusable), the structure is freed and no controller survives;
in particular the next registration over the rolled-back id set behaves
exactly as a registration over the original id set. -/
theorem register_failure_full_rollback (s : List Nat)
    (g : GpucoreCoolingDevice) (e : Int) (he : e < 0) :
    gpucore_cooling_register (some e) true s g =
      { retPtr := -22, idr := s, devFreed := true, dev := none } ∧
    gpucore_cooling_register none false s g =
      { retPtr := -22, idr := s, devFreed := true, dev := none } ∧
    gpucore_cooling_register none true
        (gpucore_cooling_register none false s g).idr g =
      gpucore_cooling_register none true s g := by
  have hne : e ≠ 0 := by omega
  have h1 : ¬(((idr_alloc s).1 : Int) < 0) := by simp
  have h3 : (idr_alloc s).2 = (idr_alloc s).1 :: s := rfl
  have h2 : gpucore_cooling_register none false s g =
      { retPtr := -22, idr := s, devFreed := true, dev := none } := by
    simp [gpucore_cooling_register, get_idr, idr_alloc_r, h1, release_idr,
      idr_remove, h3, List.erase_cons_head]
  refine ⟨?_, h2, ?_⟩
  · simp [gpucore_cooling_register, get_idr, idr_alloc_r, he, hne]
  · rw [h2]

/-- Witness for C6 with an empty id set, a zeroed structure and errno
`-ENOSPC = -12` for the allocation failure. -/
theorem register_failure_full_rollback_witness :
    gpucore_cooling_register (some (-12)) true [] gcdev_zeroed =
      { retPtr := -22, idr := [], devFreed := true, dev := none } ∧
    gpucore_cooling_register none false [] gcdev_zeroed =
      { retPtr := -22, idr := [], devFreed := true, dev := none } ∧
    gpucore_cooling_register none true
        (gpucore_cooling_register none false [] gcdev_zeroed).idr
        gcdev_zeroed =
      gpucore_cooling_register none true [] gcdev_zeroed :=
  register_failure_full_rollback [] gcdev_zeroed (-12) (by decide)

/-- Claim C7: `idr_alloc` issues the smallest unused non-negative id (the
result is unused and everything below it is used) and marks it used, so a
fresh id never collides with a live one and the live set stays
duplicate-free; releasing a held id `i` makes exactly `i` available again
while every other held id `j` remains held. -/
theorem idr_smallest_unused_and_release (s : List Nat) (i j : Nat)
    (hnd : s.Nodup) (hj : j ∈ s) (hne : j ≠ i) :
    ((idr_alloc s).1 ∉ s ∧ ∀ m, m < (idr_alloc s).1 → m ∈ s) ∧
    (idr_alloc s).2 = (idr_alloc s).1 :: s ∧
    ((idr_alloc s).2).Nodup ∧
    i ∉ idr_remove s i ∧
    j ∈ idr_remove s i := by
  obtain ⟨h1, h2, h3⟩ := idr_alloc_spec s
  refine ⟨⟨h1, h2⟩, h3, ?_, ?_, ?_⟩
  · rw [h3]
    exact List.nodup_cons.mpr ⟨h1, hnd⟩
  · intro hm
    exact ((List.Nodup.mem_erase_iff hnd).mp hm).1 rfl
  · exact (List.mem_erase_of_ne hne).mpr hj

/-- Witness for C7 on the live set `[0, 1, 3]`: the fresh id is 2 (the
smallest unused), releasing 1 frees exactly 1 while 3 stays held. -/
theorem idr_smallest_unused_and_release_witness :
    ((idr_alloc [0, 1, 3]).1 ∉ [0, 1, 3] ∧
      ∀ m, m < (idr_alloc [0, 1, 3]).1 → m ∈ [0, 1, 3]) ∧
    (idr_alloc [0, 1, 3]).2 = (idr_alloc [0, 1, 3]).1 :: [0, 1, 3] ∧
    ((idr_alloc [0, 1, 3]).2).Nodup ∧
    1 ∉ idr_remove [0, 1, 3] 1 ∧
    3 ∈ idr_remove [0, 1, 3] 1 :=
  idr_smallest_unused_and_release [0, 1, 3] 1 3 (by decide) (by decide)
    (by decide)

/-- Claim C8: the zeroed structure produced by `gpucore_cooling_alloc` has
`stop_flag = false` and `gpucore_state = 0`; a freshly registered
controller has `gpucore_state = 0` and `stop_flag = false` (state
`Active(0)`); and every state reachable through in-range requests keeps
`gpucore_state ≤ max_gpu_core_num` (the lower bound `0 ≤ gpucore_state`
holds by the unsigned type). -/
theorem fresh_controller_active_zero_invariant :
    (gpucore_cooling_alloc true = Except.ok gcdev_zeroed ∧
      gcdev_zeroed.stop_flag = false ∧ gcdev_zeroed.gpucore_state = 0) ∧
    (∀ (M : Nat) (s : List Nat) (d : GpucoreCoolingDevice),
      (gpucore_cooling_register none true s
          { gcdev_zeroed with max_gpu_core_num := M }).dev = some d →
      d.gpucore_state = 0 ∧ d.stop_flag = false) ∧
    (∀ d : GpucoreCoolingDevice, Reachable d →
      d.gpucore_state ≤ d.max_gpu_core_num) := by
  refine ⟨⟨rfl, rfl, rfl⟩, ?_, ?_⟩
  · intro M s d hd
    have h1 : ¬(((idr_alloc s).1 : Int) < 0) := by simp
    simp [gpucore_cooling_register, get_idr, idr_alloc_r, h1] at hd
    rw [← hd]
    exact ⟨rfl, rfl⟩
  · intro d hr
    induction hr with
    | init M s d hd =>
      have h1 : ¬(((idr_alloc s).1 : Int) < 0) := by simp
      simp [gpucore_cooling_register, get_idr, idr_alloc_r, h1] at hd
      rw [← hd]
      exact Nat.zero_le _
    | step d n hr hle ih =>
      rw [set_cur_state_dev_state, set_cur_state_dev_max]
      by_cases hs : d.stop_flag
      · simpa [hs] using ih
      · simpa [hs] using hle

/-- Witness for C8: the controller registered with `max_gpu_core_num = 8`
over an empty id set is `Active(0)` and satisfies the range invariant. -/
theorem fresh_controller_active_zero_invariant_witness :
    ((⟨0, true, 0, 8, false⟩ : GpucoreCoolingDevice).gpucore_state = 0 ∧
      (⟨0, true, 0, 8, false⟩ : GpucoreCoolingDevice).stop_flag = false) ∧
    (⟨0, true, 0, 8, false⟩ : GpucoreCoolingDevice).gpucore_state ≤
      (⟨0, true, 0, 8, false⟩ : GpucoreCoolingDevice).max_gpu_core_num :=
  ⟨fresh_controller_active_zero_invariant.2.1 8 [] ⟨0, true, 0, 8, false⟩
      (by decide),
   fresh_controller_active_zero_invariant.2.2 ⟨0, true, 0, 8, false⟩
      (Reachable.init 8 [] ⟨0, true, 0, 8, false⟩ (by decide))⟩

/-- Claim C10: `gpucore_cooling_register` returns the null pointer (the C
`return 0`) on success, storing the cooling device in `cool_dev`; on
either failure path it returns `ERR_PTR(-EINVAL)` (= -22) regardless of
the underlying errno `e`, and frees the caller-supplied structure. -/
theorem register_return_values (s : List Nat) (g : GpucoreCoolingDevice)
    (e : Int) (he : e < 0) :
    (gpucore_cooling_register (some e) true s g).retPtr = -22 ∧
    (gpucore_cooling_register (some e) true s g).devFreed = true ∧
    (gpucore_cooling_register (some e) false s g).retPtr = -22 ∧
    (gpucore_cooling_register none false s g).retPtr = -22 ∧
    (gpucore_cooling_register none false s g).devFreed = true ∧
    (gpucore_cooling_register none true s g).retPtr = 0 ∧
    (gpucore_cooling_register none true s g).devFreed = false ∧
    (gpucore_cooling_register none true s g).dev.map
      (fun x => x.cool_dev) = some true := by
  have hne : e ≠ 0 := by omega
  have h1 : ¬(((idr_alloc s).1 : Int) < 0) := by simp
  refine ⟨?_, ?_, ?_, ?_, ?_, ?_, ?_, ?_⟩ <;>
    simp [gpucore_cooling_register, get_idr, idr_alloc_r, he, hne, h1]

/-- Witness for C10 with an empty id set, a zeroed structure and
errno -12 for the allocation failure. -/
theorem register_return_values_witness :
    (gpucore_cooling_register (some (-12)) true [] gcdev_zeroed).retPtr =
      -22 ∧
    (gpucore_cooling_register (some (-12)) true [] gcdev_zeroed).devFreed =
      true ∧
    (gpucore_cooling_register (some (-12)) false [] gcdev_zeroed).retPtr =
      -22 ∧
    (gpucore_cooling_register none false [] gcdev_zeroed).retPtr = -22 ∧
    (gpucore_cooling_register none false [] gcdev_zeroed).devFreed = true ∧
    (gpucore_cooling_register none true [] gcdev_zeroed).retPtr = 0 ∧
    (gpucore_cooling_register none true [] gcdev_zeroed).devFreed = false ∧
    (gpucore_cooling_register none true [] gcdev_zeroed).dev.map
      (fun x => x.cool_dev) = some true :=
  register_return_values [] gcdev_zeroed (-12) (by decide)

end GpucoreCooling
